import Mathlib

/-!
# Verification of the norlys-org/model SECS estimation core

Shallow embedding of the repository's Rust sources in Lean 4, together with
theorems settling the frozen claims about the specification.

Conventions of the embedding:
* `f32`/`f64` scalars are modelled as exact rationals (`ℚ`) where the code is
  purely arithmetical (grid generation, singular-value filtering, linear
  combination of cached matrices), and as exact reals (`ℝ`) where the code uses
  trigonometry.  IEEE special values (infinities, NaN), which the transfer
  matrix kernel produces at its singularity, are modelled by the explicit
  datatype `FP` with IEEE-754 arithmetic rules.
* A Rust `panic!` / `.unwrap()` abort is modelled as `none` of an `Option`
  result: the call never returns a value to its caller.
* `Result<T, String>` is modelled as `Except String T`.
-/

/-! ## grid.rs : linspace and geographical_grid (exact-rational embedding)

Source: `src/grid.rs`.  `linspace` panics when `end <= start` (modelled as
`none`), otherwise returns `num` evenly spaced samples. -/

/-- `GeographicalPoint` of `src/grid.rs`: longitude, latitude (degrees) and
altitude (meters above the surface). -/
structure GridPoint where
  longitude : ℚ
  latitude : ℚ
  altitude : ℚ
deriving DecidableEq, Repr, Inhabited

/-- `linspace` of `src/grid.rs` (identical in `src/geo.rs`): panics (`none`)
when `end <= start`; `num = 0` gives `[]`; `num = 1` gives `[start]`;
otherwise the samples are `start + i * (end - start) / (num - 1)`. -/
def linspace (start stop : ℚ) (num : ℕ) : Option (List ℚ) :=
  if stop ≤ start then none
  else if num = 0 then some []
  else if num = 1 then some [start]
  else some ((List.range num).map fun i : ℕ =>
    start + (i : ℚ) * ((stop - start) / ((num - 1 : ℕ) : ℚ)))

/-- `geographical_grid` of `src/grid.rs`: cartesian product of the two
linspaces, outer loop over latitudes, inner loop over longitudes, every point
tagged with the fixed altitude. -/
def geographical_grid (latStart latStop : ℚ) (latSteps : ℕ)
    (lonStart lonStop : ℚ) (lonSteps : ℕ) (altitude : ℚ) : Option (List GridPoint) := do
  let latitudes ← linspace latStart latStop latSteps
  let longitudes ← linspace lonStart lonStop lonSteps
  some (latitudes.flatMap fun lat => longitudes.map fun lon =>
    { longitude := lon, latitude := lat, altitude := altitude })

example : linspace 0 1 5 = some [0, 1/4, 1/2, 3/4, 1] := by norm_num [linspace, List.range_succ]
example : linspace 0 1 0 = some [] := by norm_num [linspace]
example : linspace 1 0 5 = none := by norm_num [linspace]
example : (geographical_grid 0 90 3 0 180 2 100).map (·.length) = some 6 := by
  norm_num [geographical_grid, linspace, List.range_succ]

/-! ### Generic list helpers -/

theorem map_getD {α β : Type} (l : List α) (f : α → β) (d : α) (d' : β) (j : ℕ)
    (hj : j < l.length) : (l.map f).getD j d' = f (l.getD j d) := by
  rw [List.getD_eq_getElem?_getD, List.getD_eq_getElem?_getD, List.getElem?_map]
  rw [List.getElem?_eq_getElem hj]
  rfl

theorem range_map_getD {β : Type} (n : ℕ) (f : ℕ → β) (d : β) (j : ℕ) (hj : j < n) :
    ((List.range n).map f).getD j d = f j := by
  rw [map_getD (List.range n) f 0 d j (by simpa using hj)]
  congr 1
  rw [List.getD_eq_getElem?_getD, List.getElem?_range hj]
  rfl

theorem flatMap_getD_uniform {α β : Type} (l : List α) (f : α → List β) (m : ℕ)
    (hm : ∀ a, (f a).length = m) (dA : α) (dB : β) :
    ∀ i j, i < l.length → j < m →
      (l.flatMap f).getD (i * m + j) dB = (f (l.getD i dA)).getD j dB := by
  induction l with
  | nil => intro i j hi _; simp at hi
  | cons a t ih =>
      intro i j hi hj
      rw [List.flatMap_cons]
      cases i with
      | zero =>
          simp only [Nat.zero_mul, Nat.zero_add]
          rw [List.getD_append _ _ _ _ (by rw [hm a]; exact hj)]
          rfl
      | succ i =>
          have hidx : (i + 1) * m + j = (f a).length + (i * m + j) := by
            rw [hm a]; ring
          rw [hidx, List.getD_append_right _ _ _ _ (Nat.le_add_right _ _),
            Nat.add_sub_cancel_left]
          exact ih i j (Nat.lt_of_succ_lt_succ hi) hj

/-! ### Claims C6, C7, C8 -/

theorem linspace_length_of_valid (s e : ℚ) (n : ℕ) (h : s < e) :
    ∃ l, linspace s e n = some l ∧ l.length = n := by
  have hnot : ¬ e ≤ s := not_le.mpr h
  unfold linspace
  rcases Nat.eq_zero_or_pos n with h0 | hpos
  · exact ⟨[], by simp [h0, hnot], by simp [h0]⟩
  rcases Nat.lt_or_ge n 2 with h1 | h2
  · have : n = 1 := by omega
    exact ⟨[s], by simp [this, hnot], by simp [this]⟩
  · refine ⟨(List.range n).map fun i : ℕ =>
      s + (i : ℚ) * ((e - s) / ((n - 1 : ℕ) : ℚ)), ?_, by simp⟩
    simp only [if_neg hnot, if_neg (by omega : ¬ n = 0), if_neg (by omega : ¬ n = 1)]

/-- Claim C6: for `end > start`, `linspace` with count 0 is empty, with count 1
is `[start]`, and with count `n ≥ 2` returns exactly `n` samples whose first
element is `start`, whose last element equals `end` (exactly, hence within the
claimed 1e-6 relative tolerance), and whose consecutive differences all equal
the uniform step `(end - start) / (n - 1)`. -/
theorem linspace_samples (s e : ℚ) (n : ℕ) (h : s < e) :
    linspace s e 0 = some [] ∧ linspace s e 1 = some [s] ∧
    (2 ≤ n → ∃ l, linspace s e n = some l ∧ l.length = n ∧
      l.getD 0 0 = s ∧ l.getLast? = some e ∧
      ∀ i : ℕ, i + 1 < n → l.getD (i + 1) 0 - l.getD i 0 = (e - s) / ((n - 1 : ℕ) : ℚ)) := by
  have hnot : ¬ e ≤ s := not_le.mpr h
  refine ⟨by simp [linspace, hnot], by simp [linspace, hnot], fun hn => ?_⟩
  have hne : (((n - 1 : ℕ)) : ℚ) ≠ 0 := Nat.cast_ne_zero.mpr (by omega)
  set step : ℚ := (e - s) / ((n - 1 : ℕ) : ℚ) with hstep
  set f : ℕ → ℚ := fun i : ℕ => s + (i : ℚ) * step with hf
  refine ⟨(List.range n).map f, ?_, by simp, ?_, ?_, ?_⟩
  · simp only [linspace, if_neg hnot, if_neg (by omega : ¬ n = 0), if_neg (by omega : ¬ n = 1)]
  · rw [range_map_getD n f 0 0 (by omega)]
    simp [hf]
  · rw [List.getLast?_eq_getElem?]
    simp only [List.length_map, List.length_range]
    rw [List.getElem?_map, List.getElem?_range (by omega)]
    have hfe : f (n - 1) = e := by
      rw [hf, hstep]
      simp only []
      rw [mul_div_assoc']
      rw [mul_comm, mul_div_assoc, div_self hne, mul_one]
      ring
    simp [hfe]
  · intro i hi
    rw [range_map_getD n f 0 (i + 1) hi, range_map_getD n f 0 i (by omega)]
    rw [hf]
    push_cast
    ring

theorem linspace_samples_witness :
    ((0 : ℚ) < 1) ∧
    (linspace 0 1 0 = some [] ∧ linspace 0 1 1 = some [0] ∧
    (2 ≤ 3 → ∃ l, linspace 0 1 3 = some l ∧ l.length = 3 ∧
      l.getD 0 0 = 0 ∧ l.getLast? = some 1 ∧
      ∀ i : ℕ, i + 1 < 3 → l.getD (i + 1) 0 - l.getD i 0 = (1 - 0) / ((3 - 1 : ℕ) : ℚ))) :=
  ⟨by norm_num, linspace_samples 0 1 3 (by norm_num)⟩

/-- Claim C7: whenever `end <= start`, `linspace` fails (the Rust code panics,
which is the failure the specification names `InvalidRange`) for every count,
including 0 and 1, and the grid built from it fails as well — no sequence is
ever returned. -/
theorem linspace_invalid_range (s e : ℚ) (n : ℕ) (h : e ≤ s) :
    linspace s e n = none ∧
    (∀ (a b : ℚ) (m : ℕ) (alt : ℚ), geographical_grid s e n a b m alt = none) ∧
    (∀ (a b : ℚ) (m : ℕ) (alt : ℚ), geographical_grid a b m s e n alt = none) := by
  have hnone : linspace s e n = none := by simp [linspace, h]
  refine ⟨hnone, fun a b m alt => ?_, fun a b m alt => ?_⟩
  · simp [geographical_grid, hnone]
  · cases hab : linspace a b m with
    | none => simp [geographical_grid, hab]
    | some l => simp [geographical_grid, hab, hnone]

theorem linspace_invalid_range_witness :
    ((0 : ℚ) ≤ 1) ∧
    (linspace 1 0 0 = none ∧
    (∀ (a b : ℚ) (m : ℕ) (alt : ℚ), geographical_grid 1 0 0 a b m alt = none) ∧
    (∀ (a b : ℚ) (m : ℕ) (alt : ℚ), geographical_grid a b m 1 0 0 alt = none)) :=
  ⟨by norm_num, linspace_invalid_range 1 0 0 (by norm_num)⟩

/-- Claim C8: for valid latitude and longitude ranges, `geographical_grid`
returns exactly `lat_steps * lon_steps` points in row-major order over
latitude then longitude — the point at index `i * lon_steps + j` carries the
`i`-th linspace latitude and the `j`-th linspace longitude — and every
returned point carries the fixed altitude argument. -/
theorem grid_row_major (latS latE lonS lonE alt : ℚ) (nlat nlon : ℕ)
    (h1 : latS < latE) (h2 : lonS < lonE) :
    ∃ lats lons g, linspace latS latE nlat = some lats ∧ linspace lonS lonE nlon = some lons ∧
      geographical_grid latS latE nlat lonS lonE nlon alt = some g ∧
      g.length = nlat * nlon ∧
      (∀ i j, i < nlat → j < nlon →
        g.getD (i * nlon + j) default =
          { longitude := lons.getD j 0, latitude := lats.getD i 0, altitude := alt }) ∧
      (∀ p ∈ g, p.altitude = alt) := by
  obtain ⟨lats, hlats, hlatlen⟩ := linspace_length_of_valid latS latE nlat h1
  obtain ⟨lons, hlons, hlonlen⟩ := linspace_length_of_valid lonS lonE nlon h2
  set f : ℚ → List GridPoint :=
    fun lat => lons.map fun lon => { longitude := lon, latitude := lat, altitude := alt } with hfdef
  have hm : ∀ lat, (f lat).length = nlon := fun lat => by simp [hfdef, hlonlen]
  refine ⟨lats, lons, lats.flatMap f, hlats, hlons, ?_, ?_, ?_, ?_⟩
  · simp [geographical_grid, hlats, hlons, hfdef]
  · rw [List.length_flatMap]
    have h1 : lats.map (List.length ∘ f) = List.replicate lats.length nlon := by
      simp [Function.comp_def, hm]
    rw [h1, List.sum_replicate, smul_eq_mul, hlatlen, Nat.mul_comm]
  · intro i j hi hj
    rw [flatMap_getD_uniform lats f nlon hm 0 default i j (by omega) hj]
    rw [hfdef]
    exact map_getD lons _ 0 default j (by omega)
  · intro p hp
    simp only [List.mem_flatMap, hfdef, List.mem_map] at hp
    obtain ⟨lat, _, lon, _, rfl⟩ := hp
    rfl

theorem grid_row_major_witness :
    ((0 : ℚ) < 1) ∧ ((10 : ℚ) < 20) ∧
    (∃ lats lons g, linspace 0 1 2 = some lats ∧ linspace 10 20 2 = some lons ∧
      geographical_grid 0 1 2 10 20 2 5 = some g ∧
      g.length = 2 * 2 ∧
      (∀ i j, i < 2 → j < 2 →
        g.getD (i * 2 + j) default =
          { longitude := lons.getD j 0, latitude := lats.getD i 0, altitude := 5 }) ∧
      (∀ p ∈ g, p.altitude = 5)) :=
  ⟨by norm_num, by norm_num, grid_row_major 0 1 10 20 5 2 2 (by norm_num) (by norm_num)⟩

/-! ## IEEE-754 special values

The transfer-matrix kernel of `src/t_df.rs` divides by `sqrt(0)` at the
observation/pole coincidence, producing IEEE infinities.  `FP` models an
`f64` as an exact real number extended with the special values.  Our real
numbers carry no signed zero; a zero produced by the embedded code stands for
IEEE `+0.0` (the only zero the modelled code paths produce: `sqrt(0.0)`). -/

inductive FP where
  | fin : ℝ → FP
  | posInf : FP
  | negInf : FP
  | nan : FP

noncomputable def fpNeg : FP → FP
  | .fin x => .fin (-x)
  | .posInf => .negInf
  | .negInf => .posInf
  | .nan => .nan

noncomputable def fpAdd : FP → FP → FP
  | .fin a, .fin b => .fin (a + b)
  | .fin _, .posInf => .posInf
  | .fin _, .negInf => .negInf
  | .posInf, .fin _ => .posInf
  | .negInf, .fin _ => .negInf
  | .posInf, .posInf => .posInf
  | .negInf, .negInf => .negInf
  | _, _ => .nan

noncomputable def fpSub (a b : FP) : FP := fpAdd a (fpNeg b)

noncomputable def fpMul : FP → FP → FP
  | .fin a, .fin b => .fin (a * b)
  | .fin a, .posInf => if 0 < a then .posInf else if a < 0 then .negInf else .nan
  | .fin a, .negInf => if 0 < a then .negInf else if a < 0 then .posInf else .nan
  | .posInf, .fin b => if 0 < b then .posInf else if b < 0 then .negInf else .nan
  | .negInf, .fin b => if 0 < b then .negInf else if b < 0 then .posInf else .nan
  | .posInf, .posInf => .posInf
  | .posInf, .negInf => .negInf
  | .negInf, .posInf => .negInf
  | .negInf, .negInf => .posInf
  | _, _ => .nan

noncomputable def fpDiv : FP → FP → FP
  | .fin a, .fin b =>
      if b = 0 then (if 0 < a then .posInf else if a < 0 then .negInf else .nan)
      else .fin (a / b)
  | .fin _, .posInf => .fin 0
  | .fin _, .negInf => .fin 0
  | .posInf, .fin b => if 0 ≤ b then .posInf else .negInf
  | .negInf, .fin b => if 0 ≤ b then .negInf else .posInf
  | _, _ => .nan

noncomputable def fpSqrt : FP → FP
  | .fin a => if a < 0 then .nan else .fin (Real.sqrt a)
  | .posInf => .posInf
  | _ => .nan

/-! ## geo.rs / sphere.rs : geographic points and spherical geometry -/

/-- `GeographicalPoint` of `src/geo.rs`: longitude and latitude in degrees
(no altitude field; altitudes travel as separate arguments). -/
structure GeographicalPoint where
  lon : ℝ
  lat : ℝ

/-- Earth radius in meters (`src/geo.rs`). -/
noncomputable def R_EARTH : ℝ := 6371e3

/-- Degree-to-radian conversion (`lat_rad` / `lon_rad` of `src/geo.rs`). -/
noncomputable def toRadians (d : ℝ) : ℝ := d * Real.pi / 180

/-- Rust `f64::clamp(lo, hi)`. -/
noncomputable def clampR (v lo hi : ℝ) : ℝ := if v < lo then lo else if hi < v then hi else v

/-- Standard two-argument arctangent (Rust `a.atan2(b)` is `myAtan2 a b`:
the receiver is the ordinate). -/
noncomputable def myAtan2 (y x : ℝ) : ℝ :=
  if 0 < x then Real.arctan (y / x)
  else if x < 0 then
    (if 0 ≤ y then Real.arctan (y / x) + Real.pi else Real.arctan (y / x) - Real.pi)
  else (if 0 < y then Real.pi / 2 else if y < 0 then -(Real.pi / 2) else 0)

/-- `cos(lon2 - lon1)` as computed in `src/sphere.rs` (product identity). -/
noncomputable def cosDlon (p1 p2 : GeographicalPoint) : ℝ :=
  Real.cos (toRadians p2.lon) * Real.cos (toRadians p1.lon) +
    Real.sin (toRadians p2.lon) * Real.sin (toRadians p1.lon)

/-- `sin(lon2 - lon1)` as computed in `src/sphere.rs` (product identity). -/
noncomputable def sinDlon (p1 p2 : GeographicalPoint) : ℝ :=
  Real.sin (toRadians p2.lon) * Real.cos (toRadians p1.lon) -
    Real.cos (toRadians p2.lon) * Real.sin (toRadians p1.lon)

/-- The pre-clamp cosine of the angular distance (`src/sphere.rs`). -/
noncomputable def cosThetaRaw (p1 p2 : GeographicalPoint) : ℝ :=
  Real.sin (toRadians p1.lat) * Real.sin (toRadians p2.lat) +
    Real.cos (toRadians p1.lat) * Real.cos (toRadians p2.lat) * cosDlon p1 p2

/-- Angular distance of `src/sphere.rs` (`theta`): arccos of the clamped
cosine.  The identical formula appears in `Secs::calc_angular_distance` of
`src/secs.rs`, which computes `cos(lon2 - lon1)` directly; over exact reals
the two coincide (see `angularDistance_eq_secs_form`). -/
noncomputable def angularDistance (p1 p2 : GeographicalPoint) : ℝ :=
  Real.arccos (clampR (cosThetaRaw p1 p2) (-1) 1)

/-- Bearing of `src/sphere.rs` (`alpha = pi/2 - x.atan2(y)`). -/
noncomputable def bearingAngle (p1 p2 : GeographicalPoint) : ℝ :=
  let x := Real.cos (toRadians p2.lat) * sinDlon p1 p2
  let y := Real.cos (toRadians p1.lat) * Real.sin (toRadians p2.lat) -
    Real.sin (toRadians p1.lat) * Real.cos (toRadians p2.lat) * cosDlon p1 p2
  Real.pi / 2 - myAtan2 x y

/-! ## t_df.rs : the divergence-free SECS transfer matrix -/

/-- `MU0` of `src/t_df.rs`: the folded constant `μ0/(4π) = 1e-7`. -/
noncomputable def MU0 : ℝ := 1e-7

/-- The `Zip`-loop of `src/t_df.rs` dividing `Bθ` by `sin θ`: the quotient is
defined as `0` whenever `sin θ == 0`. -/
noncomputable def divideBySinTheta (a : FP) (sinTheta : ℝ) : FP :=
  if sinTheta = 0 then .fin 0 else fpDiv a (.fin sinTheta)

/-- One `(observation, pole)` entry of the transfer matrix of `src/t_df.rs`:
the triple `(north, east, down)` = `(T[i][0][j], T[i][1][j], T[i][2][j])`.
`over` is the file's global `obs_altitude > secs_altitude` test. -/
noncomputable def tdfEntry (obsLoc : GeographicalPoint) (obsAlt : ℝ)
    (secLoc : GeographicalPoint) (secAlt : ℝ) : FP × FP × FP :=
  let θ := angularDistance obsLoc secLoc
  let α := bearingAngle obsLoc secLoc
  let sinθ := Real.sin θ
  let cosθ := Real.cos θ
  let obs_r := obsAlt + R_EARTH
  let sec_r := secAlt + R_EARTH
  let x : ℝ := if secAlt < obsAlt then sec_r / obs_r else obs_r / sec_r
  let factor := fpDiv (.fin 1) (fpSqrt (.fin (1 - 2 * x * cosθ + x ^ 2)))
  let br := if secAlt < obsAlt then
      fpMul (.fin (MU0 * x / obs_r)) (fpSub factor (.fin 1))
    else
      fpMul (.fin (MU0 / obs_r)) (fpSub factor (.fin 1))
  let bθ := if secAlt < obsAlt then
      fpMul (.fin (-MU0 / obs_r))
        (fpSub (fpDiv (.fin (obs_r - sec_r * cosθ))
          (fpSqrt (.fin (obs_r ^ 2 - obs_r * 2 * sec_r * cosθ + sec_r ^ 2)))) (.fin 1))
    else
      fpMul (.fin (-MU0 / obs_r)) (fpAdd (fpMul factor (.fin (x - cosθ))) (.fin cosθ))
  let bθd := divideBySinTheta bθ sinθ
  (fpMul (fpNeg bθd) (.fin (Real.sin α)),
   fpMul (fpNeg bθd) (.fin (Real.cos α)),
   fpNeg br)

/-- The full transfer matrix of `src/t_df.rs`, laid out `[nobs][3][nsec]`. -/
noncomputable def tdf (obsLocs : List GeographicalPoint) (obsAlt : ℝ)
    (secLocs : List GeographicalPoint) (secAlt : ℝ) : List (List (List FP)) :=
  obsLocs.map fun o =>
    [secLocs.map fun s => (tdfEntry o obsAlt s secAlt).1,
     secLocs.map fun s => (tdfEntry o obsAlt s secAlt).2.1,
     secLocs.map fun s => (tdfEntry o obsAlt s secAlt).2.2]

/-! ### FP simplification lemmas -/

@[simp] theorem fpNeg_fin (a : ℝ) : fpNeg (.fin a) = .fin (-a) := rfl

@[simp] theorem fpNeg_posInf : fpNeg .posInf = .negInf := rfl

@[simp] theorem fpAdd_fin_fin (a b : ℝ) : fpAdd (.fin a) (.fin b) = .fin (a + b) := rfl

@[simp] theorem fpAdd_posInf_fin (b : ℝ) : fpAdd .posInf (.fin b) = .posInf := rfl

@[simp] theorem fpAdd_nan_left (x : FP) : fpAdd .nan x = .nan := by cases x <;> rfl

@[simp] theorem fpSub_posInf_fin (b : ℝ) : fpSub .posInf (.fin b) = .posInf := rfl

@[simp] theorem fpMul_fin_fin (a b : ℝ) : fpMul (.fin a) (.fin b) = .fin (a * b) := rfl

@[simp] theorem fpMul_fin_nan (a : ℝ) : fpMul (.fin a) .nan = .nan := rfl

@[simp] theorem fpMul_posInf_fin (b : ℝ) :
    fpMul .posInf (.fin b) = if 0 < b then .posInf else if b < 0 then .negInf else .nan := rfl

@[simp] theorem fpMul_fin_posInf (a : ℝ) :
    fpMul (.fin a) .posInf = if 0 < a then .posInf else if a < 0 then .negInf else .nan := rfl

@[simp] theorem fpDiv_fin_fin (a b : ℝ) :
    fpDiv (.fin a) (.fin b) =
      if b = 0 then (if 0 < a then .posInf else if a < 0 then .negInf else .nan)
      else .fin (a / b) := rfl

@[simp] theorem fpSqrt_fin (a : ℝ) :
    fpSqrt (.fin a) = if a < 0 then .nan else .fin (Real.sqrt a) := rfl

@[simp] theorem fin_injEq (a b : ℝ) : (FP.fin a = FP.fin b) ↔ a = b := by
  constructor
  · intro h; injection h
  · intro h; rw [h]

/-! ### Spherical geometry lemmas -/

theorem clampR_of_mem {v lo hi : ℝ} (h1 : lo ≤ v) (h2 : v ≤ hi) : clampR v lo hi = v := by
  unfold clampR
  rw [if_neg (not_lt.mpr h1), if_neg (not_lt.mpr h2)]

theorem cosDlon_self (p : GeographicalPoint) : cosDlon p p = 1 := by
  unfold cosDlon
  linear_combination Real.sin_sq_add_cos_sq (toRadians p.lon)

theorem cosThetaRaw_self (p : GeographicalPoint) : cosThetaRaw p p = 1 := by
  unfold cosThetaRaw
  rw [cosDlon_self]
  linear_combination Real.sin_sq_add_cos_sq (toRadians p.lat)

theorem angularDistance_self (p : GeographicalPoint) : angularDistance p p = 0 := by
  unfold angularDistance
  rw [cosThetaRaw_self, clampR_of_mem (by norm_num) le_rfl, Real.arccos_one]

theorem toRadians_add_180 (lon : ℝ) : toRadians (lon + 180) = toRadians lon + Real.pi := by
  unfold toRadians
  field_simp
  ring

theorem toRadians_neg (lat : ℝ) : toRadians (-lat) = -toRadians lat := by
  unfold toRadians
  ring

theorem cosDlon_antipode (lon lat lat2 : ℝ) :
    cosDlon ⟨lon, lat⟩ ⟨lon + 180, lat2⟩ = -1 := by
  unfold cosDlon
  simp only [toRadians_add_180]
  have h : Real.cos (toRadians lon + Real.pi) * Real.cos (toRadians lon) +
      Real.sin (toRadians lon + Real.pi) * Real.sin (toRadians lon) =
      Real.cos ((toRadians lon + Real.pi) - toRadians lon) := (Real.cos_sub _ _).symm
  rw [h]
  simp

theorem cosThetaRaw_antipode (lon lat : ℝ) :
    cosThetaRaw ⟨lon, lat⟩ ⟨lon + 180, -lat⟩ = -1 := by
  unfold cosThetaRaw
  rw [cosDlon_antipode lon lat (-lat)]
  simp only [toRadians_neg, Real.sin_neg, Real.cos_neg]
  linear_combination -Real.sin_sq_add_cos_sq (toRadians lat)

theorem angularDistance_antipode (lon lat : ℝ) :
    angularDistance ⟨lon, lat⟩ ⟨lon + 180, -lat⟩ = Real.pi := by
  unfold angularDistance
  rw [cosThetaRaw_antipode, clampR_of_mem le_rfl (by norm_num), Real.arccos_neg_one]

theorem cosDlon_eq_cos_sub (p1 p2 : GeographicalPoint) :
    cosDlon p1 p2 = Real.cos (toRadians p2.lon - toRadians p1.lon) := by
  unfold cosDlon
  rw [Real.cos_sub]

/-! ### Claim C9 -/

/-- Claim C9: the angular distance equals `acos` of the clamped quantity
`sin(lat1)sin(lat2) + cos(lat1)cos(lat2)cos(lon2 - lon1)`, hence (never being
NaN) always lies in `[0, π]`; it is `0` between a point and itself and exactly
`π` (so certainly within `1e-4`) between antipodal points. -/
theorem angular_distance_properties :
    (∀ p1 p2 : GeographicalPoint,
      angularDistance p1 p2 =
        Real.arccos (clampR (Real.sin (toRadians p1.lat) * Real.sin (toRadians p2.lat) +
          Real.cos (toRadians p1.lat) * Real.cos (toRadians p2.lat) *
            Real.cos (toRadians p2.lon - toRadians p1.lon)) (-1) 1) ∧
      0 ≤ angularDistance p1 p2 ∧ angularDistance p1 p2 ≤ Real.pi) ∧
    (∀ p : GeographicalPoint, angularDistance p p = 0) ∧
    (∀ lat lon : ℝ, angularDistance ⟨lon, lat⟩ ⟨lon + 180, -lat⟩ = Real.pi) := by
  refine ⟨fun p1 p2 => ⟨?_, Real.arccos_nonneg _, Real.arccos_le_pi _⟩,
    angularDistance_self, fun lat lon => angularDistance_antipode lon lat⟩
  unfold angularDistance cosThetaRaw
  rw [cosDlon_eq_cos_sub]

/-! ### Claim C4 -/

/-- Claim C4: when an observation's latitude, longitude and radius coincide
exactly with a pole's, the `t_df` kernel entry has down component negative
infinity, and north and east components exactly zero; the `Bθ / sin θ`
quotient is defined as `0` whenever `sin θ = 0`, which also covers the
antipodal configuration (`θ = π`). -/
theorem tdf_singularity (lat lon alt : ℝ) (h : 0 < alt + R_EARTH) :
    tdfEntry ⟨lon, lat⟩ alt ⟨lon, lat⟩ alt = (.fin 0, .fin 0, .negInf) ∧
    (∀ a : FP, divideBySinTheta a 0 = .fin 0) ∧
    (∀ lat2 lon2 : ℝ,
      Real.sin (angularDistance ⟨lon2, lat2⟩ ⟨lon2 + 180, -lat2⟩) = 0) := by
  refine ⟨?_, fun a => by simp [divideBySinTheta], fun lat2 lon2 => by
    rw [angularDistance_antipode]; exact Real.sin_pi⟩
  have hself : angularDistance ⟨lon, lat⟩ ⟨lon, lat⟩ = 0 := angularDistance_self _
  have hr : alt + R_EARTH ≠ 0 := ne_of_gt h
  have hMU : 0 < MU0 / (alt + R_EARTH) := div_pos (by norm_num [MU0]) h
  simp only [tdfEntry, hself, Real.sin_zero, Real.cos_zero, lt_self_iff_false, if_false,
    div_self hr, divideBySinTheta, if_pos rfl]
  have harg : (1 : ℝ) - 2 * 1 * 1 + 1 ^ 2 = 0 := by norm_num
  rw [harg]
  simp only [fpSqrt_fin, lt_self_iff_false, if_false, Real.sqrt_zero, fpDiv_fin_fin, if_pos rfl,
    if_pos one_pos]
  have hx0 : (1 : ℝ) - 1 = 0 := by norm_num
  rw [hx0]
  simp only [if_true]
  simp only [fpMul_posInf_fin, lt_self_iff_false, if_false, fpSub_posInf_fin, fpMul_fin_posInf,
    if_pos hMU, fpAdd_nan_left, fpMul_fin_nan, fpNeg_fin, fpMul_fin_fin, fpNeg_posInf]
  norm_num

theorem tdf_singularity_witness :
    ((0 : ℝ) < 110000 + R_EARTH) ∧
    (tdfEntry ⟨45, 85⟩ 110000 ⟨45, 85⟩ 110000 = (.fin 0, .fin 0, .negInf) ∧
    (∀ a : FP, divideBySinTheta a 0 = .fin 0) ∧
    (∀ lat2 lon2 : ℝ,
      Real.sin (angularDistance ⟨lon2, lat2⟩ ⟨lon2 + 180, -lat2⟩) = 0)) :=
  ⟨by norm_num [R_EARTH], tdf_singularity 85 45 110000 (by norm_num [R_EARTH])⟩

/-! ## svd.rs / secs.rs : singular-value truncation

`svd` of `src/svd.rs` keeps the singular values `s[i]` with
`s[i] >= epsilon * s.max()` (their reciprocals enter the pseudo-inverse, the
others contribute nothing); `Secs::fit` of `src/secs.rs` maps each singular
value to `0` below the threshold and to `1/s` at or above it.  Singular
values are non-negative, so `s.max()` is modelled as a fold of `max` with
base `0`. -/

def sMax (s : List ℚ) : ℚ := s.foldr max 0

/-- `valid_indices` of `src/svd.rs`: indices of the singular values retained
by the relative cutoff `val >= epsilon * s.max()`. -/
def validIndices (s : List ℚ) (ε : ℚ) : List ℕ :=
  (List.range s.length).filter fun i => ε * sMax s ≤ s.getD i 0

/-- `s_inv` of `Secs::fit` in `src/secs.rs`: reciprocals of the retained
singular values, `0` for the discarded ones. -/
def sInv (s : List ℚ) (ε : ℚ) : List ℚ :=
  s.map fun v => if v < ε * sMax s then 0 else 1 / v

theorem sMax_nonneg (s : List ℚ) : 0 ≤ sMax s := by
  induction s with
  | nil => simp [sMax]
  | cons a t ih => exact le_trans ih (le_max_right a (sMax t))

/-- Claim C5: a singular value is retained (contributes its reciprocal)
iff it is at least `epsilon * max(S)`, smaller ones contribute exactly `0`,
and the number of retained singular values is antitone in `epsilon`. -/
theorem svd_truncation (s : List ℚ) (ε ε1 ε2 : ℚ) (h12 : ε1 ≤ ε2) :
    (∀ i, i < s.length →
      ((i ∈ validIndices s ε ↔ ε * sMax s ≤ s.getD i 0) ∧
       (s.getD i 0 < ε * sMax s → (sInv s ε).getD i 0 = 0) ∧
       (ε * sMax s ≤ s.getD i 0 → (sInv s ε).getD i 0 = 1 / s.getD i 0))) ∧
    (validIndices s ε2).length ≤ (validIndices s ε1).length := by
  constructor
  · intro i hi
    refine ⟨?_, ?_, ?_⟩
    · simp [validIndices, List.mem_filter, List.mem_range, hi]
    · intro hlt
      unfold sInv
      rw [map_getD s _ 0 0 i hi, if_pos hlt]
    · intro hge
      unfold sInv
      rw [map_getD s _ 0 0 i hi, if_neg (not_lt.mpr hge)]
  · unfold validIndices
    refine List.Sublist.length_le (List.monotone_filter_right _ fun i h2 => ?_)
    have hmax : ε1 * sMax s ≤ ε2 * sMax s :=
      mul_le_mul_of_nonneg_right h12 (sMax_nonneg s)
    have h2' : ε2 * sMax s ≤ s.getD i 0 := by simpa using h2
    simpa using le_trans hmax h2'

theorem svd_truncation_witness :
    ((1 : ℚ) / 10 ≤ 1 / 2) ∧
    ((∀ i, i < [(4 : ℚ), 1, 2].length →
      ((i ∈ validIndices [4, 1, 2] (1/2) ↔ (1/2) * sMax [4, 1, 2] ≤ [(4 : ℚ), 1, 2].getD i 0) ∧
       ([(4 : ℚ), 1, 2].getD i 0 < (1/2) * sMax [4, 1, 2] →
         (sInv [4, 1, 2] (1/2)).getD i 0 = 0) ∧
       ((1/2) * sMax [4, 1, 2] ≤ [(4 : ℚ), 1, 2].getD i 0 →
         (sInv [4, 1, 2] (1/2)).getD i 0 = 1 / [(4 : ℚ), 1, 2].getD i 0))) ∧
    (validIndices [4, 1, 2] (1/2)).length ≤ (validIndices [4, 1, 2] (1/10)).length) :=
  ⟨by norm_num, svd_truncation [4, 1, 2] (1/2) (1/10) (1/2) (by norm_num)⟩

/-! ## model.rs : the SECS model state machine

State of the `SECS` struct of `src/model.rs`.  `sec_amps` models the
`(1, nsec)` amplitude matrix as its single row; the cached transfer matrices
hold the `FP` values produced by `t_df`. -/

structure ObservationVector where
  lon : ℝ
  lat : ℝ
  i : ℝ
  j : ℝ
  k : ℝ

structure PredictionVector where
  lon : ℝ
  lat : ℝ
  i : FP
  j : FP
  k : FP

structure SECSState where
  sec_locs : List GeographicalPoint
  sec_locs_altitude : ℝ
  sec_amps : Option (List FP)
  obs_locs_cache : List GeographicalPoint
  t_obs_flat_cache : Option (List (List FP))
  pred_locs_cache : List GeographicalPoint
  t_pred_cache : Option (List (List (List FP)))

noncomputable instance : DecidableEq GeographicalPoint := Classical.decEq _

/-- `SECS::new` of `src/model.rs`: empty caches, no amplitudes. -/
def SECS.new (secLocs : List GeographicalPoint) (secAlt : ℝ) : SECSState :=
  { sec_locs := secLocs, sec_locs_altitude := secAlt, sec_amps := none,
    obs_locs_cache := [], t_obs_flat_cache := none,
    pred_locs_cache := [], t_pred_cache := none }

/-- Lines 77–96 of `SECS::fit` in `src/model.rs`: if the observation locations
differ by value from the cached ones, recompute the transfer matrix, store its
`(nobs*3, nsec)` reshape and commit the new location cache.  This happens
before the SVD solve. -/
noncomputable def fitCacheUpdate (st : SECSState) (obs : List ObservationVector)
    (obsAlt : ℝ) : SECSState :=
  let obsLocs : List GeographicalPoint := obs.map fun o => { lon := o.lon, lat := o.lat }
  if obsLocs = st.obs_locs_cache then st
  else { st with
    t_obs_flat_cache := some (tdf obsLocs obsAlt st.sec_locs st.sec_locs_altitude).flatten,
    obs_locs_cache := obsLocs }

/-- `SECS::fit` of `src/model.rs`: cache update, then the SVD solve
(`svd(t_obs_flat_cache, epsilon)` followed by `obs_b.dot(vwu.t())`).  The
solve is abstracted as `solve`, applied to the cached flattened transfer
matrix and the flattened observation vector `[i, j, k, ...]`; it yields the
new amplitude row, or `none` when the SVD fails to converge (nalgebra panics
inside `svd`, so the struct is left exactly in the post-cache-update state —
the function result is the observable state at that abort). -/
noncomputable def fitModel (st : SECSState) (obs : List ObservationVector) (obsAlt : ℝ)
    (solve : List (List FP) → List ℝ → Option (List FP)) : SECSState :=
  let st1 := fitCacheUpdate st obs obsAlt
  match solve (st1.t_obs_flat_cache.getD []) (obs.flatMap fun o => [o.i, o.j, o.k]) with
  | some amps => { st1 with sec_amps := some amps }
  | none => st1

/-- Lines 108–117 of `SECS::predict` in `src/model.rs`: if the prediction
locations differ by value from the cached ones, recompute and cache the
prediction transfer matrix. -/
noncomputable def predictCacheUpdate (st : SECSState) (predLocs : List GeographicalPoint)
    (predAlt : ℝ) : SECSState :=
  if predLocs = st.pred_locs_cache then st
  else { st with
    t_pred_cache := some (tdf predLocs predAlt st.sec_locs st.sec_locs_altitude),
    pred_locs_cache := predLocs }

/-- `SECS::predict` of `src/model.rs`: cache update, then
`amps = sec_amps.index_axis(Axis(1), 0)` (the single value `sec_amps[0,0]`),
`t_pred = t_pred_cache.index_axis(Axis(2), 0)` (the kernel slice of pole 0),
and the broadcast product `pred[[i, c]] = sec_amps[0,0] * t_pred[i][c][0]`.
The two `.unwrap()` calls panic on an unfitted model (modelled as `none`). -/
noncomputable def modelPredict (st : SECSState) (predLocs : List GeographicalPoint)
    (predAlt : ℝ) : Option (SECSState × List PredictionVector) :=
  let st1 := predictCacheUpdate st predLocs predAlt
  match st1.sec_amps, st1.t_pred_cache with
  | some amps, some tp =>
      let amps0 := amps.headD (.fin 0)
      some (st1, predLocs.enum.map fun p =>
        { lon := p.2.lon, lat := p.2.lat,
          i := fpMul amps0 (((tp.getD p.1 []).getD 0 []).getD 0 (.fin 0)),
          j := fpMul amps0 (((tp.getD p.1 []).getD 1 []).getD 0 (.fin 0)),
          k := fpMul amps0 (((tp.getD p.1 []).getD 2 []).getD 0 (.fin 0)) })
  | _, _ => none

/-- Modelled from the spec: "for every location, compute each field component
as the dot product of the amplitude vector with that location's kernel row
for that component" — the full sum over all poles, for comparison with
`modelPredict`. -/
noncomputable def specPredictComponent (amps : List FP) (tp : List (List (List FP)))
    (p c : ℕ) : FP :=
  (List.range amps.length).foldr
    (fun sidx acc => fpAdd (fpMul (amps.getD sidx (.fin 0))
      (((tp.getD p []).getD c []).getD sidx (.fin 0))) acc) (.fin 0)

/-! ## secs.rs : the Secs struct and its predict -/

/-- The `GeographicalPoint` consumed by `src/secs.rs` (the `src/grid.rs`
struct: latitude, longitude, altitude). -/
structure SGeoPoint where
  latitude : ℝ
  longitude : ℝ
  altitude : ℝ

/-- Modelled from the spec: the `radius()` method used by `Secs::t_df` is not
under `src/`; §3 of the specification defines `radius = R_EARTH + altitude`. -/
noncomputable def SGeoPoint.radius (p : SGeoPoint) : ℝ := R_EARTH + p.altitude

/-- `MU0` of `src/secs.rs`: `4π × 1e-7`. -/
noncomputable def secsMU0 : ℝ := 4 * Real.pi * 1e-7

/-- `Secs::calc_angular_distance` of `src/secs.rs` (one pair): identical
formula to `src/sphere.rs`, with `cos(lon2 - lon1)` computed directly. -/
noncomputable def secsAngularDistance (p1 p2 : SGeoPoint) : ℝ :=
  Real.arccos (clampR
    (Real.sin (toRadians p1.latitude) * Real.sin (toRadians p2.latitude) +
      Real.cos (toRadians p1.latitude) * Real.cos (toRadians p2.latitude) *
        Real.cos (toRadians p2.longitude - toRadians p1.longitude)) (-1) 1)

/-- `Secs::calc_bearing` of `src/secs.rs` (one pair):
`alpha = pi/2 - atan2(y, x)` with `y = sin(dlon) cos(lat2)`,
`x = cos(lat1) sin(lat2) - sin(lat1) cos(lat2) cos(dlon)`. -/
noncomputable def secsBearing (p1 p2 : SGeoPoint) : ℝ :=
  let dlon := toRadians p2.longitude - toRadians p1.longitude
  let y := Real.sin dlon * Real.cos (toRadians p2.latitude)
  let x := Real.cos (toRadians p1.latitude) * Real.sin (toRadians p2.latitude) -
    Real.sin (toRadians p1.latitude) * Real.cos (toRadians p2.latitude) * Real.cos dlon
  Real.pi / 2 - myAtan2 y x

/-- The `(Br, Bθ)` pair computed by `Secs::t_df` of `src/secs.rs` for one
`(observation, pole)` pair, including all its numeric guards (a `continue`
for a zero radius leaves the entries at their zero initialisation). -/
noncomputable def secsTdfPair (o s : SGeoPoint) : ℝ × ℝ :=
  let obs_r := o.radius
  let sec_r := s.radius
  let θ := secsAngularDistance o s
  let cosθ := Real.cos θ
  let sinθ := Real.sin θ
  let factorMu := secsMU0 / (4 * Real.pi)
  if sec_r ≤ obs_r then
    if sec_r = 0 then (0, 0)
    else
      let x := obs_r / sec_r
      let denomArg := 1 - 2 * x * cosθ + x ^ 2
      let factor := if denomArg > 1e-12 then 1 / Real.sqrt denomArg else 0
      let br := factorMu / obs_r * (factor - 1)
      let bθnum := -factorMu / obs_r * (factor * (x - cosθ) + cosθ)
      let bθ := if |sinθ| > 1e-9 then bθnum / sinθ else 0
      (br, bθ)
  else
    if obs_r = 0 then (0, 0)
    else
      let x := sec_r / obs_r
      let denomArg := 1 - 2 * x * cosθ + x ^ 2
      let factorA7 := if denomArg > 1e-12 then 1 / Real.sqrt denomArg else 0
      let br := factorMu * x / obs_r * (factorA7 - 1)
      let denomSqrtA8 := if denomArg > 1e-12 then obs_r * Real.sqrt denomArg else 0
      let bθnum := if denomSqrtA8 > 1e-12 then
          -factorMu / obs_r * ((obs_r - sec_r * cosθ) / denomSqrtA8 - 1) else 0
      let bθ := if |sinθ| > 1e-9 then bθnum / sinθ else 0
      (br, bθ)

/-- `Secs::t_df` of `src/secs.rs`: the `(n_obs * 3, n_sec)` transfer matrix,
rows `obs0.Bn, obs0.Be, obs0.Bd, obs1.Bn, ...`, converted to nanotesla. -/
noncomputable def secsTdf (obsLoc secLoc : List SGeoPoint) : List (List ℝ) :=
  obsLoc.flatMap fun o =>
    [secLoc.map fun s => -(secsTdfPair o s).2 * Real.sin (secsBearing o s) * 1e9,
     secLoc.map fun s => -(secsTdfPair o s).2 * Real.cos (secsBearing o s) * 1e9,
     secLoc.map fun s => -(secsTdfPair o s).1 * 1e9]

/-- The `Secs` struct of `src/secs.rs`. -/
structure Secs where
  sec_df_loc : List SGeoPoint
  sec_amps : Option (List ℝ)

noncomputable instance : DecidableEq SGeoPoint := Classical.decEq _

def dotR (xs ys : List ℝ) : ℝ := (xs.zip ys).foldr (fun p acc => p.1 * p.2 + acc) 0

/-- `Secs::predict` of `src/secs.rs`: an empty prediction set short-circuits
to an empty `Ok` result; an unfitted model is a returned `Err` string;
otherwise `B = T_pred * sec_amps` is reshaped with nalgebra's column-major
`DMatrix::from_vec(n_pred, 3, ..)`, so row `i` reads the flat vector at
`i`, `n_pred + i` and `2*n_pred + i`. -/
noncomputable def secsPredict (m : Secs) (predLoc : List SGeoPoint) :
    Except String (List (List ℝ)) :=
  if predLoc = [] then .ok []
  else match m.sec_amps with
    | none => .error "SECS model has not been fitted yet. Call .fit() first."
    | some amps =>
        let tPred := secsTdf predLoc m.sec_df_loc
        let bFlat := tPred.map fun row => dotR row amps
        let n := predLoc.length
        .ok ((List.range n).map fun i =>
          [bFlat.getD i 0, bFlat.getD (n + i) 0, bFlat.getD (2 * n + i) 0])

/-! ### State-machine helper lemmas -/

theorem predictCacheUpdate_sec_amps (st : SECSState) (l : List GeographicalPoint) (a : ℝ) :
    (predictCacheUpdate st l a).sec_amps = st.sec_amps := by
  unfold predictCacheUpdate
  split <;> rfl

theorem fitCacheUpdate_sec_amps (st : SECSState) (obs : List ObservationVector) (a : ℝ) :
    (fitCacheUpdate st obs a).sec_amps = st.sec_amps := by
  simp only [fitCacheUpdate]
  split <;> rfl

theorem modelPredict_unfitted (st : SECSState) (l : List GeographicalPoint) (a : ℝ)
    (h : st.sec_amps = none) : modelPredict st l a = none := by
  have h1 : (predictCacheUpdate st l a).sec_amps = none := by
    rw [predictCacheUpdate_sec_amps]; exact h
  simp only [modelPredict, h1]

/-! ### Claim C3 -/

/-- Claim C3 (amended): a `predict` on a never-fitted model produces no
prediction output, but not via a typed `ModelNotFitted` error: the
`src/model.rs` version panics on `.unwrap()` of the absent amplitudes (an
abort, `none`), while the `src/secs.rs` version returns an error message
string to the caller for every nonempty location list and short-circuits to
an empty `Ok` for the empty list. -/
theorem predict_unfitted_behavior :
    (∀ (st : SECSState) (locs : List GeographicalPoint) (alt : ℝ),
      st.sec_amps = none → modelPredict st locs alt = none) ∧
    (∀ (m : Secs) (locs : List SGeoPoint), m.sec_amps = none → locs ≠ [] →
      secsPredict m locs =
        .error "SECS model has not been fitted yet. Call .fit() first.") ∧
    (∀ m : Secs, secsPredict m [] = .ok []) := by
  refine ⟨fun st locs alt h => modelPredict_unfitted st locs alt h,
    fun m locs h hne => ?_, fun m => by simp [secsPredict]⟩
  simp only [secsPredict, if_neg hne, h]

theorem predict_unfitted_behavior_witness :
    ((SECS.new [⟨20, 10⟩] 0).sec_amps = none) ∧
    ((⟨[], none⟩ : Secs).sec_amps = none) ∧ (([⟨1, 2, 3⟩] : List SGeoPoint) ≠ []) ∧
    modelPredict (SECS.new [⟨20, 10⟩] 0) [⟨50, 40⟩] 110000 = none ∧
    secsPredict ⟨[], none⟩ [⟨1, 2, 3⟩] =
      .error "SECS model has not been fitted yet. Call .fit() first." ∧
    secsPredict ⟨[], none⟩ [] = .ok [] :=
  ⟨rfl, rfl, by simp, predict_unfitted_behavior.1 _ _ _ rfl,
    predict_unfitted_behavior.2.1 _ _ rfl (by simp), predict_unfitted_behavior.2.2 _⟩

/-- Counterexample to claim C3 as stated: calling `src/model.rs` `predict` on
a freshly constructed (never fitted) model aborts — the embedded call equals
`none`, i.e. the panic of `.unwrap()` — so no `ModelNotFitted` (or any other)
typed error value is returned to the caller. -/
theorem predict_unfitted_abort_cex :
    modelPredict (SECS.new [⟨20, 10⟩] 0) [⟨50, 40⟩] 0 = none :=
  modelPredict_unfitted _ _ _ rfl

/-! ### Claim C10 -/

/-- Claim C10: when `predict` is called on an unfitted model with a location
list that differs by value from the cached one, the prediction transfer
matrix is recomputed and both prediction caches are committed before the
failure — the unfitted-predict abort is not atomic for the caches. -/
theorem predict_unfitted_commits_pred_cache (st : SECSState)
    (locs : List GeographicalPoint) (alt : ℝ)
    (hamps : st.sec_amps = none) (hdiff : locs ≠ st.pred_locs_cache) :
    modelPredict st locs alt = none ∧
    (predictCacheUpdate st locs alt).pred_locs_cache = locs ∧
    (predictCacheUpdate st locs alt).t_pred_cache =
      some (tdf locs alt st.sec_locs st.sec_locs_altitude) := by
  refine ⟨modelPredict_unfitted st locs alt hamps, ?_, ?_⟩ <;>
    simp [predictCacheUpdate, if_neg hdiff]

theorem predict_unfitted_commits_pred_cache_witness :
    ((SECS.new [⟨20, 10⟩] 0).sec_amps = none) ∧
    (([⟨60, 45⟩] : List GeographicalPoint) ≠ (SECS.new [⟨20, 10⟩] 0).pred_locs_cache) ∧
    (modelPredict (SECS.new [⟨20, 10⟩] 0) [⟨60, 45⟩] 220000 = none ∧
     (predictCacheUpdate (SECS.new [⟨20, 10⟩] 0) [⟨60, 45⟩] 220000).pred_locs_cache =
       [⟨60, 45⟩] ∧
     (predictCacheUpdate (SECS.new [⟨20, 10⟩] 0) [⟨60, 45⟩] 220000).t_pred_cache =
       some (tdf [⟨60, 45⟩] 220000 (SECS.new [⟨20, 10⟩] 0).sec_locs
         (SECS.new [⟨20, 10⟩] 0).sec_locs_altitude)) :=
  ⟨rfl, by simp [SECS.new], predict_unfitted_commits_pred_cache _ _ _ rfl (by simp [SECS.new])⟩

/-! ### Claim C2 -/

/-- Concrete observation input used for claim C2's counterexample. -/
noncomputable def obsC2 : List ObservationVector := [⟨50, 40, 1, 3, 5⟩]

/-- Claim C2 (amended): when the solve step of `fit` fails, the amplitude
vector is left unchanged, but `fit` is not all-or-nothing: whenever the
observation locations differ by value from the cached ones, the
observation-location cache and the cached flattened transfer matrix are
already committed before the solve (only when the locations equal the cached
ones is the whole state preserved). -/
theorem fit_solver_failure_state (st : SECSState) (obs : List ObservationVector) (obsAlt : ℝ)
    (solve : List (List FP) → List ℝ → Option (List FP))
    (hfail : solve ((fitCacheUpdate st obs obsAlt).t_obs_flat_cache.getD [])
      (obs.flatMap fun o => [o.i, o.j, o.k]) = none) :
    fitModel st obs obsAlt solve = fitCacheUpdate st obs obsAlt ∧
    (fitModel st obs obsAlt solve).sec_amps = st.sec_amps ∧
    ((obs.map fun o => ({ lon := o.lon, lat := o.lat } : GeographicalPoint)) ≠
        st.obs_locs_cache →
      (fitModel st obs obsAlt solve).obs_locs_cache =
        (obs.map fun o => { lon := o.lon, lat := o.lat }) ∧
      (fitModel st obs obsAlt solve).t_obs_flat_cache =
        some (tdf (obs.map fun o => { lon := o.lon, lat := o.lat }) obsAlt
          st.sec_locs st.sec_locs_altitude).flatten) ∧
    ((obs.map fun o => ({ lon := o.lon, lat := o.lat } : GeographicalPoint)) =
        st.obs_locs_cache →
      fitModel st obs obsAlt solve = st) := by
  have h1 : fitModel st obs obsAlt solve = fitCacheUpdate st obs obsAlt := by
    simp only [fitModel, hfail]
  refine ⟨h1, by rw [h1, fitCacheUpdate_sec_amps], fun hne => ?_, fun heq => ?_⟩
  · rw [h1]
    constructor <;> simp [fitCacheUpdate, if_neg hne]
  · rw [h1]
    simp [fitCacheUpdate, if_pos heq]

theorem fit_solver_failure_state_witness :
    ((fun (_ : List (List FP)) (_ : List ℝ) => (none : Option (List FP)))
        ((fitCacheUpdate (SECS.new [⟨20, 10⟩] 0) obsC2 0).t_obs_flat_cache.getD [])
        (obsC2.flatMap fun o => [o.i, o.j, o.k]) = none) ∧
    (fitModel (SECS.new [⟨20, 10⟩] 0) obsC2 0 (fun _ _ => none) =
        fitCacheUpdate (SECS.new [⟨20, 10⟩] 0) obsC2 0 ∧
    (fitModel (SECS.new [⟨20, 10⟩] 0) obsC2 0 (fun _ _ => none)).sec_amps =
        (SECS.new [⟨20, 10⟩] 0).sec_amps ∧
    ((obsC2.map fun o => ({ lon := o.lon, lat := o.lat } : GeographicalPoint)) ≠
        (SECS.new [⟨20, 10⟩] 0).obs_locs_cache →
      (fitModel (SECS.new [⟨20, 10⟩] 0) obsC2 0 (fun _ _ => none)).obs_locs_cache =
        (obsC2.map fun o => { lon := o.lon, lat := o.lat }) ∧
      (fitModel (SECS.new [⟨20, 10⟩] 0) obsC2 0 (fun _ _ => none)).t_obs_flat_cache =
        some (tdf (obsC2.map fun o => { lon := o.lon, lat := o.lat }) 0
          (SECS.new [⟨20, 10⟩] 0).sec_locs (SECS.new [⟨20, 10⟩] 0).sec_locs_altitude).flatten) ∧
    ((obsC2.map fun o => ({ lon := o.lon, lat := o.lat } : GeographicalPoint)) =
        (SECS.new [⟨20, 10⟩] 0).obs_locs_cache →
      fitModel (SECS.new [⟨20, 10⟩] 0) obsC2 0 (fun _ _ => none) = SECS.new [⟨20, 10⟩] 0)) :=
  ⟨rfl, fit_solver_failure_state (SECS.new [⟨20, 10⟩] 0) obsC2 0 (fun _ _ => none) rfl⟩

/-- Counterexample to claim C2 as stated: on a fresh model (empty observation
cache) a `fit` call whose solve step fails nevertheless leaves the
observation-location cache and the cached transfer matrix changed — they are
committed before the solve. -/
theorem fit_failure_mutates_cache_cex :
    ((fitModel (SECS.new [⟨20, 10⟩] 0) obsC2 0 fun _ _ => none).obs_locs_cache ≠
      (SECS.new [⟨20, 10⟩] 0).obs_locs_cache) ∧
    ((fitModel (SECS.new [⟨20, 10⟩] 0) obsC2 0 fun _ _ => none).t_obs_flat_cache ≠
      (SECS.new [⟨20, 10⟩] 0).t_obs_flat_cache) := by
  have h1 : fitModel (SECS.new [⟨20, 10⟩] 0) obsC2 0 (fun _ _ => none) =
      fitCacheUpdate (SECS.new [⟨20, 10⟩] 0) obsC2 0 := by
    simp only [fitModel]
  have h2 : (obsC2.map fun o => ({ lon := o.lon, lat := o.lat } : GeographicalPoint)) ≠
      (SECS.new [⟨20, 10⟩] 0).obs_locs_cache := by
    simp [obsC2, SECS.new]
  constructor <;> rw [h1] <;> simp [fitCacheUpdate, if_neg h2, SECS.new, obsC2]

/-! ### Claim C1 -/

/-- A fitted two-pole model state used for claim C1: amplitude row `[1, 1]`,
one cached prediction location whose cached kernel has north-component row
`[1, 1]` across the two poles (east and down rows zero). -/
noncomputable def stC1 : SECSState :=
  { sec_locs := [⟨0, 0⟩, ⟨10, 10⟩], sec_locs_altitude := 110000,
    sec_amps := some [.fin 1, .fin 1],
    obs_locs_cache := [], t_obs_flat_cache := none,
    pred_locs_cache := [⟨50, 40⟩],
    t_pred_cache := some [[[.fin 1, .fin 1], [.fin 0, .fin 0], [.fin 0, .fin 0]]] }

/-- Claim C1 fails on `src/model.rs`: with two poles, amplitudes `[1, 1]` and
a cached kernel whose north row at the single prediction location is `[1, 1]`,
`predict` returns the north component `1` — only
`sec_amps[0,0] * T[0][0][0]` — while the dot product of the full amplitude
vector with the kernel row (the spec's formula, `specPredictComponent`)
is `2`. -/
theorem predict_first_pole_only :
    modelPredict stC1 [⟨50, 40⟩] 0 =
      some (stC1, [{ lon := 50, lat := 40, i := .fin 1, j := .fin 0, k := .fin 0 }]) ∧
    specPredictComponent [.fin 1, .fin 1]
      [[[.fin 1, .fin 1], [.fin 0, .fin 0], [.fin 0, .fin 0]]] 0 0 = .fin 2 ∧
    (FP.fin 1 : FP) ≠ .fin 2 := by
  refine ⟨?_, ?_, ?_⟩
  · have hcache : predictCacheUpdate stC1 [⟨50, 40⟩] 0 = stC1 := by
      simp only [predictCacheUpdate, stC1]
      simp
    simp only [modelPredict, hcache]
    simp [stC1, List.enum, List.enumFrom]
  · simp [specPredictComponent, List.range_succ]
    norm_num
  · simp only [ne_eq, fin_injEq]
    norm_num
